import Mathlib

/-!
Shallow embedding of the `anime-game-data` crate (src/lib.rs, src/types.rs,
src/game_data.rs): the revision-gated synchronization pipeline, the nine
derived maps, the snapshot store and its query facade.

Modelling choices:
* Rust `HashMap` values built by `insert`/`collect` are modelled as `Store`,
  the list of insertions in order; lookup returns the value of the last
  insertion for a key, matching `HashMap::insert` overwrite semantics.
* `u32` ids and text hashes are modelled as `Nat` (the code performs no
  arithmetic on them, only equality and map keying).
* `f64` affix values are modelled as `ℚ`; the only arithmetic performed on
  them is the single `* 100` scaling in `fetch_affix_map`.
* Fallible remote fetches are modelled by a `GameDataSource` record whose
  fields hold the decode result (`Except`) of each of the nine tables plus
  the latest-revision query; `update_impl`/`needs_update_impl` consume it.
* `Vec` indexing `skills[0]`/`skills[1]` panics in Rust when out of bounds;
  the derivation `skill_type_map_of` returns `Option`, with `none` standing
  for that panic (an aborted, never-returning call).
* Remote calls are logged: the embedded `update_impl` also returns the list
  of remote requests it performed, so "zero table fetches" is statable.
-/

namespace AGD

/-- Model of a Rust `HashMap` built by a sequence of inserts: the insertions
in order, duplicates kept. -/
abbrev Store (α β : Type) := List (α × β)

/-- Embedding of `HashMap::insert`: record the insertion (lookup prefers later entries). -/
def Store.insert {α β : Type} (m : Store α β) (k : α) (v : β) : Store α β :=
  m ++ [(k, v)]

/-- Embedding of `HashMap::get`: the value of the last insertion for `x`, if any. -/
def Store.get? {α β : Type} [DecidableEq α] : Store α β → α → Option β
  | [], _ => none
  | (k, v) :: rest, x =>
    match Store.get? rest x with
    | some v' => some v'
    | none => if x = k then some v else none

/-! ## src/types.rs -/

/-- Embedding of `types.rs` `Property`: closed enum of stat kinds. -/
inductive Property where
  | Hp
  | HpPercent
  | Attack
  | AttackPercent
  | Defense
  | DefensePercent
  | ElementalMastery
  | EnergyRecharge
  | Healing
  | CritRate
  | CritDamage
  | PhysicalDamage
  | AnemoDamage
  | GeoDamage
  | ElectroDamage
  | HydroDamage
  | PyroDamage
  | CryoDamage
  | DendroDamage
deriving DecidableEq, Repr

/-- Embedding of `Property::is_percentage` (types.rs lines 99-118). -/
def Property.is_percentage : Property → Bool
  | .HpPercent => true
  | .AttackPercent => true
  | .DefensePercent => true
  | .EnergyRecharge => true
  | .Healing => true
  | .CritRate => true
  | .CritDamage => true
  | .PhysicalDamage => true
  | .AnemoDamage => true
  | .GeoDamage => true
  | .ElectroDamage => true
  | .HydroDamage => true
  | .PyroDamage => true
  | .CryoDamage => true
  | .DendroDamage => true
  | _ => false

/-- Embedding of `impl FromStr for Property` (types.rs lines 121-148); the call sites use
`parse().ok()`, so the error payload is dropped and `Option` suffices. -/
def Property.from_str : String → Option Property
  | "FIGHT_PROP_HP" => some .Hp
  | "FIGHT_PROP_HP_PERCENT" => some .HpPercent
  | "FIGHT_PROP_ATTACK" => some .Attack
  | "FIGHT_PROP_ATTACK_PERCENT" => some .AttackPercent
  | "FIGHT_PROP_DEFENSE" => some .Defense
  | "FIGHT_PROP_DEFENSE_PERCENT" => some .DefensePercent
  | "FIGHT_PROP_ELEMENT_MASTERY" => some .ElementalMastery
  | "FIGHT_PROP_CHARGE_EFFICIENCY" => some .EnergyRecharge
  | "FIGHT_PROP_HEAL_ADD" => some .Healing
  | "FIGHT_PROP_CRITICAL" => some .CritRate
  | "FIGHT_PROP_CRITICAL_HURT" => some .CritDamage
  | "FIGHT_PROP_PHYSICAL_ADD_HURT" => some .PhysicalDamage
  | "FIGHT_PROP_WIND_ADD_HURT" => some .AnemoDamage
  | "FIGHT_PROP_ROCK_ADD_HURT" => some .GeoDamage
  | "FIGHT_PROP_ELEC_ADD_HURT" => some .ElectroDamage
  | "FIGHT_PROP_WATER_ADD_HURT" => some .HydroDamage
  | "FIGHT_PROP_FIRE_ADD_HURT" => some .PyroDamage
  | "FIGHT_PROP_ICE_ADD_HURT" => some .CryoDamage
  | "FIGHT_PROP_GRASS_ADD_HURT" => some .DendroDamage
  | _ => none

/-- Embedding of `types.rs` `ArtifactSlot`. -/
inductive ArtifactSlot where
  | Flower
  | Plume
  | Sands
  | Goblet
  | Circlet
deriving DecidableEq, Repr

/-- Embedding of `ArtifactSlot::from_game_data_name` (types.rs lines 29-38). -/
def ArtifactSlot.from_game_data_name : String → Option ArtifactSlot
  | "EQUIP_BRACER" => some .Flower
  | "EQUIP_NECKLACE" => some .Plume
  | "EQUIP_SHOES" => some .Sands
  | "EQUIP_RING" => some .Goblet
  | "EQUIP_DRESS" => some .Circlet
  | _ => none

/-- Embedding of `types.rs` `SkillType`. -/
inductive SkillType where
  | Auto
  | Skill
  | Burst
deriving DecidableEq, Repr

/-- Embedding of `types.rs` `Affix`. -/
structure Affix where
  property : Property
  value : ℚ
deriving DecidableEq, Repr

/-- Embedding of `types.rs` `Artifact`. -/
structure Artifact where
  set : String
  slot : ArtifactSlot
  rarity : Nat
deriving DecidableEq, Repr

/-- Embedding of `types.rs` `Weapon`. -/
structure Weapon where
  name : String
  rarity : Nat
deriving DecidableEq, Repr

/-! ## src/game_data.rs: decoded raw-table rows -/

/-- Embedding of `AvatarExcelConfigDataEntry`. -/
structure AvatarExcelConfigDataEntry where
  id : Nat
  name_text_map_hash : Nat
deriving DecidableEq, Repr

/-- Embedding of `AvatarSkillDepotExcelConfigDataEntry`; `skills` is a `Vec<u32>` of any
length (JSON decode does not bound it). -/
structure AvatarSkillDepotExcelConfigDataEntry where
  energy_skill : Nat
  skills : List Nat
deriving DecidableEq, Repr

/-- Embedding of `DisplayItemExcelConfigDataEntry`. -/
structure DisplayItemExcelConfigDataEntry where
  display_type : String
  name_text_map_hash : Nat
  param : Nat
deriving DecidableEq, Repr

/-- Embedding of `MaterialExcelConfigDataEntry`. -/
structure MaterialExcelConfigDataEntry where
  id : Nat
  name_text_map_hash : Nat
deriving DecidableEq, Repr

/-- Embedding of `ReliquaryAffixExcelConfigDataEntry`. -/
structure ReliquaryAffixExcelConfigDataEntry where
  id : Nat
  prop_type : String
  prop_value : ℚ
deriving DecidableEq, Repr

/-- Embedding of `ReliquaryExcelConfigDataEntry`. -/
structure ReliquaryExcelConfigDataEntry where
  equip_type : String
  id : Nat
  rank_level : Nat
  set_id : Nat
deriving DecidableEq, Repr

/-- Embedding of `ReliquaryMainPropExcelConfigDataEntry`. -/
structure ReliquaryMainPropExcelConfigDataEntry where
  id : Nat
  prop_type : String
deriving DecidableEq, Repr

/-- Embedding of `WeaponExcelConfigDataEntry`. -/
structure WeaponExcelConfigDataEntry where
  id : Nat
  name_text_map_hash : Nat
  rank_level : Nat
deriving DecidableEq, Repr

/-! ## Derivations (the pure bodies of the `fetch_*` functions in lib.rs) -/

/-- Embedding of `lookup_text` (lib.rs lines 27-33); the debug log on miss is dropped. -/
def lookup_text (text_map : Store Nat String) (id : Nat) : Option String :=
  text_map.get? id

/-- The `filter_map` closure of `fetch_affix_map` (lib.rs lines 231-239):
parse `prop_type`, scale percentages by 100. -/
def affix_rule (entry : ReliquaryAffixExcelConfigDataEntry) :
    Option (Nat × Affix) :=
  match Property.from_str entry.prop_type with
  | none => none
  | some property =>
    some (entry.id,
      { property := property
        value := if property.is_percentage then entry.prop_value * 100
          else entry.prop_value })

/-- Body of `fetch_affix_map` (lib.rs lines 229-240): `filter_map` the rule
over the decoded rows. -/
def affix_map_of (data : List ReliquaryAffixExcelConfigDataEntry) :
    Store Nat Affix :=
  data.filterMap affix_rule

/-- The `filter_map` closure of `fetch_artifact_map` (lib.rs lines 254-265):
join `set_id` against the set map, map `equip_type` to a slot, drop on
either failure. -/
def artifact_rule (set_map : Store Nat String)
    (entry : ReliquaryExcelConfigDataEntry) : Option (Nat × Artifact) :=
  match set_map.get? entry.set_id with
  | none => none
  | some set =>
    match ArtifactSlot.from_game_data_name entry.equip_type with
    | none => none
    | some slot =>
      some (entry.id, { set := set, slot := slot, rarity := entry.rank_level })

/-- Body of `fetch_artifact_map` (lib.rs lines 252-266). -/
def artifact_map_of (set_map : Store Nat String)
    (data : List ReliquaryExcelConfigDataEntry) : Store Nat Artifact :=
  data.filterMap (artifact_rule set_map)

/-- Body of `fetch_character_map` (lib.rs lines 280-288). -/
def character_map_of (text_map : Store Nat String)
    (data : List AvatarExcelConfigDataEntry) : Store Nat String :=
  data.filterMap (fun entry =>
    match lookup_text text_map entry.name_text_map_hash with
    | none => none
    | some name => some (entry.id, name))

/-- Body of `fetch_material_map` (lib.rs lines 300-308). -/
def material_map_of (text_map : Store Nat String)
    (data : List MaterialExcelConfigDataEntry) : Store Nat String :=
  data.filterMap (fun entry =>
    match lookup_text text_map entry.name_text_map_hash with
    | none => none
    | some name => some (entry.id, name))

/-- Body of `fetch_property_map` (lib.rs lines 322-325). -/
def property_map_of (data : List ReliquaryMainPropExcelConfigDataEntry) :
    Store Nat Property :=
  data.filterMap (fun entry =>
    match Property.from_str entry.prop_type with
    | none => none
    | some p => some (entry.id, p))

/-- Body of `fetch_set_map` (lib.rs lines 337-346): keep only
`RELIQUARY_ITEM` display rows, key by the referenced set id (`param`). -/
def set_map_of (text_map : Store Nat String)
    (data : List DisplayItemExcelConfigDataEntry) : Store Nat String :=
  data.filterMap (fun entry =>
    if entry.display_type ≠ "RELIQUARY_ITEM" then none
    else
      match lookup_text text_map entry.name_text_map_hash with
      | none => none
      | some name => some (entry.param, name))

/-- Loop body of `fetch_skill_type_map` (lib.rs lines 360-365), threading the
map. `skills[0]`/`skills[1]` are unchecked `Vec` indexing in the source: an
out-of-bounds index panics, modelled as `none` (the call never returns). -/
def process_depot (m : Store Nat SkillType) :
    List AvatarSkillDepotExcelConfigDataEntry → Option (Store Nat SkillType)
  | [] => some m
  | config :: rest =>
    match config.skills.get? 0, config.skills.get? 1 with
    | some s0, some s1 =>
      process_depot
        (((m.insert config.energy_skill .Burst).insert s0 .Auto).insert s1 .Skill)
        rest
    | _, _ => none

/-- Body of `fetch_skill_type_map` (lib.rs lines 360-367): fold the depot
records into an initially-empty map; `none` is a panic. -/
def skill_type_map_of (data : List AvatarSkillDepotExcelConfigDataEntry) :
    Option (Store Nat SkillType) :=
  process_depot [] data

/-- Body of `fetch_weapon_map` (lib.rs lines 388-400). -/
def weapon_map_of (text_map : Store Nat String)
    (data : List WeaponExcelConfigDataEntry) : Store Nat Weapon :=
  data.filterMap (fun entry =>
    match lookup_text text_map entry.name_text_map_hash with
    | none => none
    | some name => some (entry.id, { name := name, rarity := entry.rank_level }))

/-! ## Snapshot store (lib.rs lines 35-105) -/

/-- Embedding of `DATABASE_VERSION` (lib.rs line 35). -/
def DATABASE_VERSION : Nat := 0

/-- Embedding of `Database` (lib.rs lines 37-49): the persisted snapshot. -/
structure Database where
  version : Nat
  git_hash : String
  affix_map : Store Nat Affix
  artifact_map : Store Nat Artifact
  character_map : Store Nat String
  material_map : Store Nat String
  property_map : Store Nat Property
  set_map : Store Nat String
  skill_type_map : Store Nat SkillType
  weapon_map : Store Nat Weapon
deriving DecidableEq, Repr

/-- Embedding of `Database::new` (lib.rs lines 52-65). -/
def Database.new (git_hash : String) : Database where
  version := DATABASE_VERSION
  git_hash := git_hash
  affix_map := []
  artifact_map := []
  character_map := []
  material_map := []
  property_map := []
  set_map := []
  skill_type_map := []
  weapon_map := []

/-- Embedding of `Database::load_from_path` (lib.rs lines 67-73). The file system and JSON
decode are modelled by the argument: `none` means the file could not be
opened or did not deserialize to a `Database`; `some db` is the decoded
value. The source performs no check on `db.version`. -/
def Database.load_from_path (file_contents : Option Database) :
    Except String Database :=
  match file_contents with
  | none => .error "open or deserialize failure"
  | some db => .ok db

/-- Embedding of `AnimeGameData` (lib.rs lines 76-80); the cache path is kept opaque. -/
structure AnimeGameData where
  cache_path : Option String
  db : Option Database
deriving DecidableEq, Repr

/-- Embedding of `AnimeGameData::new` (lib.rs lines 83-88). -/
def AnimeGameData.new : AnimeGameData where
  cache_path := none
  db := none

/-- Embedding of `AnimeGameData::new_with_cache` (lib.rs lines 90-101): load the cache,
`.ok()` turning any load error into `None`. -/
def AnimeGameData.new_with_cache (cache_path : String)
    (file_contents : Option Database) : AnimeGameData where
  cache_path := some cache_path
  db := (Database.load_from_path file_contents).toOption

/-- Embedding of `AnimeGameData::has_data` (lib.rs lines 163-165). -/
def AnimeGameData.has_data (st : AnimeGameData) : Bool :=
  st.db.isSome

/-- Embedding of `AnimeGameData::get_affix` (lib.rs lines 107-112). -/
def AnimeGameData.get_affix (st : AnimeGameData) (id : Nat) :
    Except String Affix :=
  match st.db with
  | none => .error "No data loaded"
  | some db =>
    match db.affix_map.get? id with
    | none => .error "Unable to fetch affix"
    | some a => .ok a

/-- Embedding of `AnimeGameData::get_artifact` (lib.rs lines 114-119). -/
def AnimeGameData.get_artifact (st : AnimeGameData) (id : Nat) :
    Except String Artifact :=
  match st.db with
  | none => .error "No data loaded"
  | some db =>
    match db.artifact_map.get? id with
    | none => .error "Unable to fetch artifact"
    | some a => .ok a

/-- Embedding of `AnimeGameData::get_skill_type` (lib.rs lines 149-154). -/
def AnimeGameData.get_skill_type (st : AnimeGameData) (id : Nat) :
    Except String SkillType :=
  match st.db with
  | none => .error "No data loaded"
  | some db =>
    match db.skill_type_map.get? id with
    | none => .error "Unable to fetch skill type"
    | some t => .ok t

/-! ## Remote source and the synchronization pipeline -/

/-- Embedding of `GameDataSource` (lib.rs lines 22-25): each field is the outcome of
fetching and decoding one remote payload (`get_latest_hash`, or
`get_json_file` at one of the nine fixed paths). -/
structure GameDataSource where
  latest_hash : Except String String
  text_map_table : Except String (Store Nat String)
  skill_depot_table : Except String (List AvatarSkillDepotExcelConfigDataEntry)
  display_item_table : Except String (List DisplayItemExcelConfigDataEntry)
  reliquary_table : Except String (List ReliquaryExcelConfigDataEntry)
  reliquary_main_prop_table : Except String (List ReliquaryMainPropExcelConfigDataEntry)
  reliquary_affix_table : Except String (List ReliquaryAffixExcelConfigDataEntry)
  weapon_table : Except String (List WeaponExcelConfigDataEntry)
  material_table : Except String (List MaterialExcelConfigDataEntry)
  avatar_table : Except String (List AvatarExcelConfigDataEntry)

/-- Remote-call log entry for `get_latest_hash`. -/
def latest_hash_call : String := "latest_hash"

/-- Remote-call log entries for the nine `get_json_file` paths. -/
def text_map_path : String := "TextMap/TextMapEN.json"

def skill_depot_path : String :=
  "ExcelBinOutput/AvatarSkillDepotExcelConfigData.json"

def display_item_path : String :=
  "ExcelBinOutput/DisplayItemExcelConfigData.json"

def reliquary_path : String := "ExcelBinOutput/ReliquaryExcelConfigData.json"

def reliquary_main_prop_path : String :=
  "ExcelBinOutput/ReliquaryMainPropExcelConfigData.json"

def reliquary_affix_path : String :=
  "ExcelBinOutput/ReliquaryAffixExcelConfigData.json"

def weapon_path : String := "ExcelBinOutput/WeaponExcelConfigData.json"

def material_path : String := "ExcelBinOutput/MaterialExcelConfigData.json"

def avatar_path : String := "ExcelBinOutput/AvatarExcelConfigData.json"

/-- Failure of an `update_impl` run. `fetchErr` is a table fetch or decode
failure returned as an error (`?` in the source); `panicErr` is the
out-of-bounds `skills` indexing panic, which aborts without returning. -/
inductive UpdateErr where
  | fetchErr : String → UpdateErr
  | panicErr : UpdateErr
deriving DecidableEq, Repr

/-- The nine fetch-and-derive steps of `update_impl` (lib.rs lines 191-201),
in source order, building the staged `Database` from `Database::new` plus
the nine field assignments. Also returns the list of remote paths fetched. -/
def runFetches (source : GameDataSource) (latest_git_hash : String) :
    Except UpdateErr Database × List String :=
  match source.text_map_table with
  | .error e => (.error (.fetchErr e), [text_map_path])
  | .ok text_map =>
  match source.skill_depot_table with
  | .error e => (.error (.fetchErr e), [text_map_path, skill_depot_path])
  | .ok depot_data =>
  match skill_type_map_of depot_data with
  | none => (.error .panicErr, [text_map_path, skill_depot_path])
  | some skill_type_map =>
  match source.display_item_table with
  | .error e =>
    (.error (.fetchErr e), [text_map_path, skill_depot_path, display_item_path])
  | .ok display_data =>
  let set_map := set_map_of text_map display_data
  match source.reliquary_table with
  | .error e =>
    (.error (.fetchErr e),
      [text_map_path, skill_depot_path, display_item_path, reliquary_path])
  | .ok reliquary_data =>
  match source.reliquary_main_prop_table with
  | .error e =>
    (.error (.fetchErr e),
      [text_map_path, skill_depot_path, display_item_path, reliquary_path,
        reliquary_main_prop_path])
  | .ok main_prop_data =>
  match source.reliquary_affix_table with
  | .error e =>
    (.error (.fetchErr e),
      [text_map_path, skill_depot_path, display_item_path, reliquary_path,
        reliquary_main_prop_path, reliquary_affix_path])
  | .ok affix_data =>
  match source.weapon_table with
  | .error e =>
    (.error (.fetchErr e),
      [text_map_path, skill_depot_path, display_item_path, reliquary_path,
        reliquary_main_prop_path, reliquary_affix_path, weapon_path])
  | .ok weapon_data =>
  match source.material_table with
  | .error e =>
    (.error (.fetchErr e),
      [text_map_path, skill_depot_path, display_item_path, reliquary_path,
        reliquary_main_prop_path, reliquary_affix_path, weapon_path,
        material_path])
  | .ok material_data =>
  match source.avatar_table with
  | .error e =>
    (.error (.fetchErr e),
      [text_map_path, skill_depot_path, display_item_path, reliquary_path,
        reliquary_main_prop_path, reliquary_affix_path, weapon_path,
        material_path, avatar_path])
  | .ok avatar_data =>
    (.ok { Database.new latest_git_hash with
        skill_type_map := skill_type_map
        set_map := set_map
        artifact_map := artifact_map_of set_map reliquary_data
        property_map := property_map_of main_prop_data
        affix_map := affix_map_of affix_data
        weapon_map := weapon_map_of text_map weapon_data
        material_map := material_map_of text_map material_data
        character_map := character_map_of text_map avatar_data },
      [text_map_path, skill_depot_path, display_item_path, reliquary_path,
        reliquary_main_prop_path, reliquary_affix_path, weapon_path,
        material_path, avatar_path])

/-- The revision gate of `update_impl` (lib.rs lines 185-189): a loaded
snapshot whose `git_hash` equals the latest hash short-circuits the run. -/
def gate_matches (db? : Option Database) (latest_git_hash : String) : Bool :=
  match db? with
  | some db => db.git_hash == latest_git_hash
  | none => false

/-- Embedding of `AnimeGameData::try_save_db` (lib.rs lines 209-219). The file-system
write outcome is external and modelled by `fs_write_ok`. -/
def try_save_db (fs_write_ok : Bool) (st : AnimeGameData) :
    Except String Unit :=
  match st.cache_path with
  | none => .error "no cache path provided"
  | some _ => if fs_write_ok then .ok () else .error "write failed"

/-- Embedding of `AnimeGameData::update_impl` (lib.rs lines 182-207): revision gate, the
nine staged fetch-and-derive steps, install of the new snapshot, best-effort
save (`let _ = self.try_save_db()`). Returns the call result, the state
afterwards, and the log of remote calls performed. -/
def update_impl (fs_write_ok : Bool) (source : GameDataSource)
    (st : AnimeGameData) :
    Except UpdateErr Unit × AnimeGameData × List String :=
  match source.latest_hash with
  | .error e => (.error (.fetchErr e), st, [latest_hash_call])
  | .ok latest_git_hash =>
    if gate_matches st.db latest_git_hash then
      (.ok (), st, [latest_hash_call])
    else
      match runFetches source latest_git_hash with
      | (.error e, log) => (.error e, st, latest_hash_call :: log)
      | (.ok db, log) =>
        match try_save_db fs_write_ok { st with db := some db } with
        | .ok _ => (.ok (), { st with db := some db }, latest_hash_call :: log)
        | .error _ => (.ok (), { st with db := some db }, latest_hash_call :: log)

/-- Embedding of `AnimeGameData::needs_update_impl` (lib.rs lines 171-176): `Ok(true)`
with no remote call when no snapshot is loaded, else compare hashes. -/
def needs_update_impl (source : GameDataSource) (st : AnimeGameData) :
    Except String Bool :=
  match st.db with
  | none => .ok true
  | some db =>
    match source.latest_hash with
    | .error e => .error e
    | .ok h => .ok (db.git_hash != h)

/-! ## Helper lemmas -/

/-- Lookup in an appended store prefers the later (second) part. -/
theorem Store.get?_append {α β : Type} [DecidableEq α]
    (a b : Store α β) (x : α) :
    Store.get? (a ++ b) x =
      match Store.get? b x with
      | some v => some v
      | none => Store.get? a x := by
  induction a with
  | nil =>
    simp only [List.nil_append]
    cases Store.get? b x <;> simp [Store.get?]
  | cons p a ih =>
    obtain ⟨k, v⟩ := p
    simp only [List.cons_append, Store.get?]
    rw [List.append_eq, ih]
    cases hb : Store.get? b x <;> cases ha : Store.get? a x <;> simp

/-- A store none of whose keys is `x` yields no value for `x`. -/
theorem Store.get?_eq_none_of_keys {α β : Type} [DecidableEq α]
    (m : Store α β) (x : α) (h : ∀ p ∈ m, p.1 ≠ x) :
    Store.get? m x = none := by
  induction m with
  | nil => rfl
  | cons p m ih =>
    obtain ⟨k, v⟩ := p
    have hk : k ≠ x := h (k, v) (List.mem_cons_self _ _)
    have : Store.get? m x = none := ih (fun q hq => h q (List.mem_cons_of_mem _ hq))
    simp only [Store.get?, this]
    rw [if_neg (fun hxk => hk hxk.symm)]

/-- Lookup in a `filterMap`-built store at a key occupied by exactly one row
of the input: the result is exactly what the rule produces on that row.
`key` extracts a row's key and `hf` says the rule keys its output by it. -/
theorem Store.get?_filterMap_unique {α β : Type} [DecidableEq α] {γ : Type}
    (data : List γ) (f : γ → Option (α × β)) (key : γ → α) (e : γ)
    (hf : ∀ a p, f a = some p → p.1 = key a)
    (h : data.filter (fun a => key a = key e) = [e]) :
    Store.get? (data.filterMap f) (key e) = (f e).map (fun p => p.2) := by
  induction data with
  | nil => simp at h
  | cons d rest ih =>
    rw [List.filter_cons] at h
    by_cases hd : key d = key e
    · rw [if_pos (by simp [hd])] at h
      have hde : d = e ∧ rest.filter (fun a => decide (key a = key e)) = [] := by
        constructor
        · exact (List.cons_eq_cons.mp h).1
        · exact (List.cons_eq_cons.mp h).2
      obtain ⟨rfl, hrest⟩ := hde
      have hnone : Store.get? (rest.filterMap f) (key d) = none := by
        apply Store.get?_eq_none_of_keys
        intro p hp
        obtain ⟨a, ha, hfa⟩ := List.mem_filterMap.mp hp
        have hka : p.1 = key a := hf a p hfa
        have hne : key a ≠ key d := by
          intro hcon
          have : a ∈ rest.filter (fun a => decide (key a = key d)) :=
            List.mem_filter.mpr ⟨ha, by simp [hcon]⟩
          simp [hrest] at this
        simpa [hka] using hne
      cases hfe : f d with
      | none => simp [List.filterMap_cons, hfe, hnone]
      | some p =>
        have hkey : p.1 = key d := hf d p hfe
        obtain ⟨pk, pv⟩ := p
        have hkey2 : pk = key d := hkey
        simp only [List.filterMap_cons, hfe, Store.get?, hnone]
        rw [if_pos hkey2.symm]
        rfl
    · rw [if_neg (by simp [hd])] at h
      have hih := ih h
      cases hfe : f d with
      | none => simpa [List.filterMap_cons, hfe] using hih
      | some p =>
        have hkey : p.1 = key d := hf d p hfe
        obtain ⟨pk, pv⟩ := p
        have hkey2 : pk = key d := hkey
        simp only [List.filterMap_cons, hfe, Store.get?, hih]
        cases hmap : Option.map (fun p => p.2) (f e) with
        | none => rw [if_neg (fun hc => hd ((hc.trans hkey2).symm))]
        | some v => rfl

/-- The three insertions one well-formed skill-depot record contributes, in
source order (lib.rs lines 362-364); a record with fewer than two skills
contributes a panic instead, represented by the empty list here (its callers
separately handle the panic). -/
def record_inserts (r : AvatarSkillDepotExcelConfigDataEntry) :
    Store Nat SkillType :=
  match r.skills.get? 0, r.skills.get? 1 with
  | some s0, some s1 => [(r.energy_skill, .Burst), (s0, .Auto), (s1, .Skill)]
  | _, _ => []

/-- The role one record assigns to a skill id, resolving multiply-tagged ids
by the record's own insertion order (second skills entry beats first skills
entry beats energy skill). `none` when the record does not tag `x` or has
fewer than two skills. -/
def role_in (r : AvatarSkillDepotExcelConfigDataEntry) (x : Nat) :
    Option SkillType :=
  match r.skills.get? 0, r.skills.get? 1 with
  | some s0, some s1 =>
    if x = s1 then some .Skill
    else if x = s0 then some .Auto
    else if x = r.energy_skill then some .Burst
    else none
  | _, _ => none

/-- Looking up a record's own insertions yields exactly its assigned role. -/
theorem Store.get?_record_inserts (r : AvatarSkillDepotExcelConfigDataEntry)
    (x : Nat) : Store.get? (record_inserts r) x = role_in r x := by
  unfold record_inserts role_in
  cases h0 : r.skills.get? 0 with
  | none => rfl
  | some s0 =>
    cases h1 : r.skills.get? 1 with
    | none => rfl
    | some s1 =>
      by_cases hx1 : x = s1
      · subst hx1
        simp [Store.get?]
      · by_cases hx0 : x = s0
        · subst hx0
          simp [Store.get?, hx1]
        · by_cases hxe : x = r.energy_skill
          · subst hxe
            simp [Store.get?, hx1, hx0]
          · simp [Store.get?, hx1, hx0, hxe]

/-- Processing well-formed depot records never panics and appends each
record's three insertions in source order. -/
theorem process_depot_eq_append (data : List AvatarSkillDepotExcelConfigDataEntry)
    (m : Store Nat SkillType) (hwf : ∀ r ∈ data, 2 ≤ r.skills.length) :
    process_depot m data = some (m ++ data.flatMap record_inserts) := by
  induction data generalizing m with
  | nil => simp [process_depot]
  | cons r rest ih =>
    have hr : 2 ≤ r.skills.length := hwf r (List.mem_cons_self _ _)
    match hsk : r.skills with
    | [] => rw [hsk] at hr; simp at hr
    | [s0] => rw [hsk] at hr; simp at hr
    | s0 :: s1 :: tl =>
      have h0 : r.skills.get? 0 = some s0 := by rw [hsk]; rfl
      have h1 : r.skills.get? 1 = some s1 := by rw [hsk]; rfl
      have hrec : record_inserts r = [(r.energy_skill, .Burst), (s0, .Auto), (s1, .Skill)] := by
        unfold record_inserts
        rw [h0, h1]
      simp only [process_depot, h0, h1]
      rw [ih _ (fun r' hr' => hwf r' (List.mem_cons_of_mem _ hr'))]
      simp [Store.insert, hrec, List.flatMap_cons, List.append_assoc]

/-- If no record of `l` assigns a role to `x`, neither do their combined
insertions. -/
theorem Store.get?_flatMap_none (l : List AvatarSkillDepotExcelConfigDataEntry)
    (x : Nat) (h : ∀ r ∈ l, role_in r x = none) :
    Store.get? (l.flatMap record_inserts) x = none := by
  induction l with
  | nil => rfl
  | cons r rest ih =>
    rw [List.flatMap_cons, Store.get?_append]
    rw [ih (fun r' hr' => h r' (List.mem_cons_of_mem _ hr'))]
    rw [Store.get?_record_inserts, h r (List.mem_cons_self _ _)]

/-- The revision gate opens exactly for a loaded snapshot at the latest
hash. -/
theorem gate_matches_true_iff (db? : Option Database) (h : String) :
    gate_matches db? h = true ↔ ∃ db, db? = some db ∧ db.git_hash = h := by
  cases db? with
  | none => simp [gate_matches]
  | some db => simp [gate_matches]

/-- A successful nine-step run stages a database carrying the latest hash. -/
theorem runFetches_ok_git_hash (source : GameDataSource) (h : String)
    (db : Database) (log : List String)
    (heq : runFetches source h = (.ok db, log)) : db.git_hash = h := by
  unfold runFetches at heq
  repeat' split at heq
  all_goals simp_all
  exact congrArg Database.git_hash heq.1.symm

/-- A successful `update_impl` leaves a snapshot loaded whose revision is the
source's latest hash. -/
theorem update_impl_ok_db (fs_write_ok : Bool) (source : GameDataSource)
    (st st' : AnimeGameData) (log : List String)
    (heq : update_impl fs_write_ok source st = (.ok (), st', log)) :
    ∃ h db, source.latest_hash = .ok h ∧ st'.db = some db ∧ db.git_hash = h := by
  unfold update_impl at heq
  split at heq
  · simp at heq
  case _ h hl =>
    split at heq
    case isTrue hgate =>
      obtain ⟨db, hdb, hhash⟩ := (gate_matches_true_iff st.db h).mp hgate
      obtain ⟨rfl, rfl⟩ : st' = st ∧ log = [latest_hash_call] := by
        simpa using heq.symm
      exact ⟨h, db, hl, hdb, hhash⟩
    case isFalse =>
      split at heq
      · simp at heq
      case _ db lg hrun =>
        have hgit := runFetches_ok_git_hash source h db lg hrun
        split at heq <;>
          · have h2 : ({ st with db := some db } : AnimeGameData) = st' ∧
                latest_hash_call :: lg = log := by simpa using heq
            obtain ⟨hst, _⟩ := h2
            exact ⟨h, db, hl, by rw [← hst], hgit⟩

/-- Whether a fetch/decode outcome is a failure. -/
def is_err {ε α : Type} : Except ε α → Bool
  | .error _ => true
  | .ok _ => false

/-- At least one of the nine table fetch/decode outcomes is a failure. -/
def some_table_fails (source : GameDataSource) : Prop :=
  is_err source.text_map_table = true ∨
  is_err source.skill_depot_table = true ∨
  is_err source.display_item_table = true ∨
  is_err source.reliquary_table = true ∨
  is_err source.reliquary_main_prop_table = true ∨
  is_err source.reliquary_affix_table = true ∨
  is_err source.weapon_table = true ∨
  is_err source.material_table = true ∨
  is_err source.avatar_table = true

/-- A nine-step run that stages a database consumed only successful table
fetches. -/
theorem runFetches_ok_no_table_fails (source : GameDataSource) (h : String)
    (db : Database) (log : List String)
    (heq : runFetches source h = (.ok db, log)) : ¬ some_table_fails source := by
  intro hfail
  unfold runFetches at heq
  repeat' split at heq
  all_goals simp_all [some_table_fails, is_err]

/-! ## Claim theorems -/

/-- C4: the claim says deriving the skill-type map completes without
panicking even for a record whose skills list has fewer than two entries,
dropping what is unavailable. The code (`config.skills[0]`,
`config.skills[1]` in lib.rs lines 363-364) indexes the list unchecked:
on the record `{energy_skill := 5, skills := []}` the derivation panics
(`none`), aborting the synchronization, while a well-formed record is
processed normally. This refutes the claim at that input. -/
theorem skill_depot_short_skills_panics :
    skill_type_map_of [{ energy_skill := 5, skills := [] }] = none ∧
    skill_type_map_of [{ energy_skill := 5, skills := [7] }] = none ∧
    skill_type_map_of [{ energy_skill := 5, skills := [7, 8] }] =
      some [(5, .Burst), (7, .Auto), (8, .Skill)] := by
  refine ⟨rfl, rfl, rfl⟩

/-- C10: within one skill-depot record the three tagged positions are
inserted in the fixed order energy-skill/Burst, first-skill/Auto,
second-skill/Skill (lib.rs lines 362-364), so an id occupying several of
those positions ends up with the type of the last one: second skills entry
beats first skills entry beats energy skill. -/
theorem skill_type_within_record_priority (e s0 s1 : Nat) (rest : List Nat)
    (x : Nat) :
    ∃ m, skill_type_map_of [{ energy_skill := e, skills := s0 :: s1 :: rest }] =
        some m ∧
      m.get? x = (if x = s1 then some SkillType.Skill
        else if x = s0 then some SkillType.Auto
        else if x = e then some SkillType.Burst
        else none) := by
  have hwf : ∀ r ∈ [({ energy_skill := e, skills := s0 :: s1 :: rest } :
      AvatarSkillDepotExcelConfigDataEntry)], 2 ≤ r.skills.length := by
    intro r hr
    simp only [List.mem_singleton] at hr
    subst hr
    simp
  have hm := process_depot_eq_append _ [] hwf
  refine ⟨_, hm, ?_⟩
  simp only [List.nil_append, List.flatMap_cons, List.flatMap_nil,
    List.append_nil]
  rw [Store.get?_record_inserts]
  unfold role_in
  rfl

/-- C9: across records of the skill-depot table, later records overwrite
earlier ones for the same skill id: if the last record assigning a role to
`x` is `r` (no record after `r` references `x`), the derived map sends `x`
to the role `r` assigns it, whatever earlier records did. All records must
carry at least two skills, otherwise the derivation panics. -/
theorem skill_type_last_write_wins
    (l1 l2 : List AvatarSkillDepotExcelConfigDataEntry)
    (r : AvatarSkillDepotExcelConfigDataEntry) (x : Nat) (t : SkillType)
    (hwf : ∀ r' ∈ l1 ++ r :: l2, 2 ≤ r'.skills.length)
    (hr : role_in r x = some t)
    (hl2 : ∀ r' ∈ l2, role_in r' x = none) :
    ∃ m, skill_type_map_of (l1 ++ r :: l2) = some m ∧
      m.get? x = some t := by
  have hm := process_depot_eq_append _ [] hwf
  refine ⟨_, hm, ?_⟩
  simp only [List.nil_append, List.flatMap_append, List.flatMap_cons]
  rw [Store.get?_append, Store.get?_append]
  rw [Store.get?_flatMap_none l2 x hl2]
  rw [Store.get?_record_inserts, hr]

/-- Witness for C9: in a table of two well-formed records both referencing
skill id 300 (the first as its second skills entry, the second as its energy
skill), the derived map assigns 300 the later record's role, Burst. -/
theorem skill_type_last_write_wins_witness :
    ∃ m, skill_type_map_of
        [{ energy_skill := 100, skills := [200, 300] },
          { energy_skill := 300, skills := [400, 500] }] = some m ∧
      m.get? 300 = some SkillType.Burst :=
  skill_type_last_write_wins [{ energy_skill := 100, skills := [200, 300] }]
    [] { energy_skill := 300, skills := [400, 500] } 300 .Burst
    (by decide) (by decide) (by decide)

/-- C5: for an artifact-affix row that is the only row with its id, the
derived affix map holds, under that id, the parsed property together with
the source `prop_value` scaled by 100 exactly when the property
`is_percentage`, and unchanged otherwise; a row whose `prop_type` does not
parse contributes nothing under its id. -/
theorem affix_value_scaling (data : List ReliquaryAffixExcelConfigDataEntry)
    (e : ReliquaryAffixExcelConfigDataEntry)
    (h : data.filter (fun a => a.id = e.id) = [e]) :
    Store.get? (affix_map_of data) e.id =
      (Property.from_str e.prop_type).map (fun p =>
        { property := p
          value := if p.is_percentage then e.prop_value * 100
            else e.prop_value }) := by
  have hf : ∀ (a : ReliquaryAffixExcelConfigDataEntry) (p : Nat × Affix),
      affix_rule a = some p → p.1 = a.id := by
    intro a p hap
    unfold affix_rule at hap
    cases hq : Property.from_str a.prop_type <;> rw [hq] at hap
    · simp at hap
    · simp only [Option.some.injEq] at hap
      rw [← hap]
  have hmain := Store.get?_filterMap_unique data affix_rule (fun a => a.id) e hf h
  unfold affix_map_of
  rw [hmain]
  unfold affix_rule
  cases hq : Property.from_str e.prop_type <;> simp [hq]

/-- Witness for C5: on a two-row table, the percentage row (Geo damage
bonus, source value 4/5) is stored scaled to 80, and the flat row (HP,
source value 239) is stored unchanged. -/
theorem affix_value_scaling_witness :
    Store.get? (affix_map_of
        [{ id := 982001, prop_type := "FIGHT_PROP_ROCK_ADD_HURT",
            prop_value := 4/5 },
          { id := 501022, prop_type := "FIGHT_PROP_HP", prop_value := 239 }])
      982001 = some { property := .GeoDamage, value := 80 } ∧
    Store.get? (affix_map_of
        [{ id := 982001, prop_type := "FIGHT_PROP_ROCK_ADD_HURT",
            prop_value := 4/5 },
          { id := 501022, prop_type := "FIGHT_PROP_HP", prop_value := 239 }])
      501022 = some { property := .Hp, value := 239 } := by
  constructor
  · have h1 := affix_value_scaling
      [{ id := 982001, prop_type := "FIGHT_PROP_ROCK_ADD_HURT",
          prop_value := 4/5 },
        { id := 501022, prop_type := "FIGHT_PROP_HP", prop_value := 239 }]
      { id := 982001, prop_type := "FIGHT_PROP_ROCK_ADD_HURT",
        prop_value := 4/5 } rfl
    rw [h1]
    norm_num [Property.from_str, Property.is_percentage]
  · have h2 := affix_value_scaling
      [{ id := 982001, prop_type := "FIGHT_PROP_ROCK_ADD_HURT",
          prop_value := 4/5 },
        { id := 501022, prop_type := "FIGHT_PROP_HP", prop_value := 239 }]
      { id := 501022, prop_type := "FIGHT_PROP_HP", prop_value := 239 }
      rfl
    rw [h2]
    norm_num [Property.from_str, Property.is_percentage]

/-- C6: for an artifact/reliquary row that is the only row with its id, the
derived artifact map holds an entry under that id exactly when the row's
`set_id` is a key of the set-name map and its `equip_type` is a recognized
slot string; the entry then carries the joined set name, the mapped slot and
the row's `rank_level`, and a row failing either condition contributes
nothing under its id. -/
theorem artifact_map_join (set_map : Store Nat String)
    (data : List ReliquaryExcelConfigDataEntry)
    (e : ReliquaryExcelConfigDataEntry)
    (h : data.filter (fun a => a.id = e.id) = [e]) :
    Store.get? (artifact_map_of set_map data) e.id =
      (match set_map.get? e.set_id,
          ArtifactSlot.from_game_data_name e.equip_type with
        | some s, some sl =>
          some { set := s, slot := sl, rarity := e.rank_level }
        | _, _ => none) ∧
    ((Store.get? (artifact_map_of set_map data) e.id).isSome = true ↔
      ((set_map.get? e.set_id).isSome = true ∧
        (ArtifactSlot.from_game_data_name e.equip_type).isSome = true)) := by
  have hf : ∀ (a : ReliquaryExcelConfigDataEntry) (p : Nat × Artifact),
      artifact_rule set_map a = some p → p.1 = a.id := by
    intro a p hap
    unfold artifact_rule at hap
    cases hs : set_map.get? a.set_id <;> rw [hs] at hap
    · simp at hap
    · cases hsl : ArtifactSlot.from_game_data_name a.equip_type <;>
        rw [hsl] at hap
      · simp at hap
      · simp only [Option.some.injEq] at hap
        rw [← hap]
  have hmain := Store.get?_filterMap_unique data (artifact_rule set_map)
    (fun a => a.id) e hf h
  have heq : Store.get? (artifact_map_of set_map data) e.id =
      (match set_map.get? e.set_id,
          ArtifactSlot.from_game_data_name e.equip_type with
        | some s, some sl =>
          some { set := s, slot := sl, rarity := e.rank_level }
        | _, _ => none) := by
    unfold artifact_map_of
    rw [hmain]
    unfold artifact_rule
    cases hs : set_map.get? e.set_id <;>
      cases hsl : ArtifactSlot.from_game_data_name e.equip_type <;>
      simp [hs, hsl]
  refine ⟨heq, ?_⟩
  rw [heq]
  cases hs : set_map.get? e.set_id <;>
    cases hsl : ArtifactSlot.from_game_data_name e.equip_type <;> simp

/-- Witness for C6: with set 15031 named in the set map, the row for
artifact 31534 (equip type `EQUIP_DRESS`, rank 5) is present with the joined
name, slot Circlet and rarity 5, while a row referencing the absent set 77
is omitted entirely. -/
theorem artifact_map_join_witness :
    Store.get? (artifact_map_of [(15031, "Marechaussee Hunter")]
        [{ equip_type := "EQUIP_DRESS", id := 31534, rank_level := 5,
            set_id := 15031 },
          { equip_type := "EQUIP_RING", id := 99999, rank_level := 5,
            set_id := 77 }]) 31534 =
      some { set := "Marechaussee Hunter", slot := .Circlet, rarity := 5 } ∧
    Store.get? (artifact_map_of [(15031, "Marechaussee Hunter")]
        [{ equip_type := "EQUIP_DRESS", id := 31534, rank_level := 5,
            set_id := 15031 },
          { equip_type := "EQUIP_RING", id := 99999, rank_level := 5,
            set_id := 77 }]) 99999 = none := by
  constructor
  · have h1 := (artifact_map_join [(15031, "Marechaussee Hunter")]
      [{ equip_type := "EQUIP_DRESS", id := 31534, rank_level := 5,
          set_id := 15031 },
        { equip_type := "EQUIP_RING", id := 99999, rank_level := 5,
          set_id := 77 }]
      { equip_type := "EQUIP_DRESS", id := 31534, rank_level := 5,
        set_id := 15031 } (by decide)).1
    rw [h1]
    rfl
  · have h2 := (artifact_map_join [(15031, "Marechaussee Hunter")]
      [{ equip_type := "EQUIP_DRESS", id := 31534, rank_level := 5,
          set_id := 15031 },
        { equip_type := "EQUIP_RING", id := 99999, rank_level := 5,
          set_id := 77 }]
      { equip_type := "EQUIP_RING", id := 99999, rank_level := 5,
        set_id := 77 } (by decide)).1
    rw [h2]
    rfl

/-! ## Sample data for witnesses -/

/-- A source at revision "B" whose nine tables all decode to empty lists. -/
def src_all_ok_b : GameDataSource where
  latest_hash := .ok "B"
  text_map_table := .ok []
  skill_depot_table := .ok []
  display_item_table := .ok []
  reliquary_table := .ok []
  reliquary_main_prop_table := .ok []
  reliquary_affix_table := .ok []
  weapon_table := .ok []
  material_table := .ok []
  avatar_table := .ok []

/-- A source at revision "B" whose text-map fetch fails. -/
def src_text_fail : GameDataSource :=
  { src_all_ok_b with text_map_table := .error "boom" }

/-- A source at revision "A" whose nine tables all decode to empty lists. -/
def src_same_a : GameDataSource :=
  { src_all_ok_b with latest_hash := .ok "A" }

/-- A store with a loaded snapshot at revision "A" and no cache path. -/
def st_db_a : AnimeGameData where
  cache_path := none
  db := some (Database.new "A")

/-- The full fetch log of a successful nine-step run, in source order. -/
def nine_paths : List String :=
  [text_map_path, skill_depot_path, display_item_path, reliquary_path,
    reliquary_main_prop_path, reliquary_affix_path, weapon_path,
    material_path, avatar_path]

/-- C1: atomicity of a failed synchronization. First, whenever `update_impl`
returns with an error (a failed table fetch/decode, a failed revision check,
or the skills-indexing panic), the state — snapshot, revision, `has_data` —
is exactly the state before the call. Second, whenever the revision gate
does not short-circuit and at least one of the nine table fetches fails, the
run does end in an error. -/
theorem update_failure_atomic :
    (∀ (fs_write_ok : Bool) (source : GameDataSource) (st : AnimeGameData)
      (e : UpdateErr) (st' : AnimeGameData) (log : List String),
      update_impl fs_write_ok source st = (.error e, st', log) → st' = st) ∧
    (∀ (fs_write_ok : Bool) (source : GameDataSource) (st : AnimeGameData)
      (h : String), source.latest_hash = .ok h →
      gate_matches st.db h = false → some_table_fails source →
      ∃ e, (update_impl fs_write_ok source st).1 = Except.error e) := by
  constructor
  · intro fs_write_ok source st e st' log heq
    unfold update_impl at heq
    split at heq
    · simp only [Prod.mk.injEq] at heq
      exact heq.2.1.symm
    · split at heq
      · simp at heq
      · split at heq
        · simp only [Prod.mk.injEq] at heq
          exact heq.2.1.symm
        · split at heq <;> simp at heq
  · intro fs_write_ok source st h hl hgate hfail
    rcases hr : runFetches source h with ⟨res, lg⟩
    cases res with
    | ok db => exact absurd hfail (runFetches_ok_no_table_fails source h db lg hr)
    | error e =>
      refine ⟨e, ?_⟩
      simp [update_impl, hl, hgate, hr]

/-- Witness for C1: against a source whose text-map fetch fails, updating a
store loaded at revision "A" leaves the state unchanged and returns an
error. -/
theorem update_failure_atomic_witness :
    (update_impl false src_text_fail st_db_a).2.1 = st_db_a ∧
    (∃ e, (update_impl false src_text_fail st_db_a).1 = Except.error e) := by
  constructor
  · exact update_failure_atomic.1 false src_text_fail st_db_a
      (.fetchErr "boom") _ _ rfl
  · exact update_failure_atomic.2 false src_text_fail st_db_a "B" rfl rfl
      (Or.inl rfl)

/-- C2: idempotence. A store whose loaded snapshot carries the source's
latest revision gets `Ok` from `update_impl` with the state unchanged and
the revision check as the only remote call (zero table fetches); and after
any successful `update_impl`, a second call against the same source is such
a no-op, so the snapshot after the second call equals the snapshot after the
first. -/
theorem update_idempotent :
    (∀ (fs_write_ok : Bool) (source : GameDataSource) (st : AnimeGameData)
      (db : Database), st.db = some db →
      source.latest_hash = .ok db.git_hash →
      update_impl fs_write_ok source st = (.ok (), st, [latest_hash_call])) ∧
    (∀ (fs1 fs2 : Bool) (source : GameDataSource) (st st1 : AnimeGameData)
      (log1 : List String),
      update_impl fs1 source st = (.ok (), st1, log1) →
      update_impl fs2 source st1 = (.ok (), st1, [latest_hash_call])) := by
  constructor
  · intro fs_write_ok source st db hdb hl
    have hg : gate_matches st.db db.git_hash = true :=
      (gate_matches_true_iff _ _).mpr ⟨db, hdb, rfl⟩
    simp [update_impl, hl, hg]
  · intro fs1 fs2 source st st1 log1 heq
    obtain ⟨h, db, hl, hdb, hgit⟩ := update_impl_ok_db fs1 source st st1 log1 heq
    have hg : gate_matches st1.db h = true :=
      (gate_matches_true_iff _ _).mpr ⟨db, hdb, hgit⟩
    simp [update_impl, hl, hg]

/-- Witness for C2: a store at revision "A" updated against a source at
revision "A" returns `Ok` unchanged, logging only the revision check. -/
theorem update_idempotent_witness :
    update_impl false src_same_a st_db_a =
      (.ok (), st_db_a, [latest_hash_call]) :=
  update_idempotent.1 false src_same_a st_db_a (Database.new "A") rfl rfl

/-- C7: `needs_update_impl`, when the latest-revision call succeeds, answers
true exactly when no snapshot is loaded or the loaded snapshot's revision
differs from the latest one; and immediately after a successful
`update_impl` against a source, `needs_update_impl` against that same
source answers false. -/
theorem needs_update_correct :
    (∀ (source : GameDataSource) (st : AnimeGameData) (h : String),
      source.latest_hash = .ok h →
      (needs_update_impl source st = Except.ok true ↔
        (st.db = none ∨ ∃ db, st.db = some db ∧ db.git_hash ≠ h))) ∧
    (∀ (fs_write_ok : Bool) (source : GameDataSource) (st st1 : AnimeGameData)
      (log : List String),
      update_impl fs_write_ok source st = (.ok (), st1, log) →
      needs_update_impl source st1 = Except.ok false) := by
  constructor
  · intro source st h hl
    cases hdb : st.db with
    | none => simp [needs_update_impl, hdb]
    | some db => simp [needs_update_impl, hdb, hl, bne_iff_ne]
  · intro fs_write_ok source st st1 log heq
    obtain ⟨h, db, hl, hdb, hgit⟩ :=
      update_impl_ok_db fs_write_ok source st st1 log heq
    simp [needs_update_impl, hdb, hl, hgit]

/-- Witness for C7: a store at revision "A" does not need an update from a
source at revision "A"; and after a successful update of a fresh store
against the revision-"B" source, `needs_update_impl` answers false. -/
theorem needs_update_correct_witness :
    (needs_update_impl src_same_a st_db_a = Except.ok true ↔
      (st_db_a.db = none ∨ ∃ db, st_db_a.db = some db ∧ db.git_hash ≠ "A")) ∧
    needs_update_impl src_all_ok_b
      (update_impl true src_all_ok_b AnimeGameData.new).2.1 =
      Except.ok false := by
  constructor
  · exact needs_update_correct.1 src_same_a st_db_a "A" rfl
  · exact needs_update_correct.2 true src_all_ok_b AnimeGameData.new _ _ rfl

/-- C8: when all nine fetch-and-derive steps succeed, the staged snapshot is
installed and `update_impl` returns `Ok` whatever the persistence outcome:
the conclusion holds for both values of the file-system write flag and for
any configured cache path, including none. -/
theorem update_install_best_effort :
    ∀ (fs_write_ok : Bool) (source : GameDataSource) (st : AnimeGameData)
      (h : String) (db : Database) (log : List String),
      source.latest_hash = .ok h →
      gate_matches st.db h = false →
      runFetches source h = (.ok db, log) →
      update_impl fs_write_ok source st =
        (.ok (), { st with db := some db }, latest_hash_call :: log) := by
  intro fs_write_ok source st h db log hl hgate hrun
  cases htry : try_save_db fs_write_ok { st with db := some db } <;>
    simp [update_impl, hl, hgate, hrun, htry]

/-- Witness for C8: updating a fresh store (no cache path, so persistence
fails) against the all-ok revision-"B" source with a failing file system
still installs the staged snapshot and returns `Ok`. -/
theorem update_install_best_effort_witness :
    update_impl false src_all_ok_b AnimeGameData.new =
      (.ok (), { AnimeGameData.new with db := some (Database.new "B") },
        latest_hash_call :: nine_paths) :=
  update_install_best_effort false src_all_ok_b AnimeGameData.new "B"
    (Database.new "B") nine_paths rfl rfl rfl

/-- A well-formed persisted snapshot whose `version` field is 1, not the
current schema version 0. -/
def bad_version_db : Database where
  version := 1
  git_hash := "A"
  affix_map := [(7, { property := .Hp, value := 239 })]
  artifact_map := []
  character_map := []
  material_map := []
  property_map := []
  set_map := []
  skill_type_map := []
  weapon_map := []

/-- C3 counterexample: the claim says a cache file whose `version` differs
from the schema version 0 loads as "no snapshot" (`has_data` false, lookups
fail). `Database::load_from_path` performs no version check, so a decodable
snapshot with `version = 1` is loaded by `new_with_cache`: `has_data` is
true and its data is served. -/
theorem version_mismatch_cache_still_loads :
    bad_version_db.version ≠ DATABASE_VERSION ∧
    (AnimeGameData.new_with_cache "cache.json" (some bad_version_db)).has_data
      = true ∧
    (AnimeGameData.new_with_cache "cache.json" (some bad_version_db)).get_affix
      7 = .ok { property := .Hp, value := 239 } := by
  refine ⟨by decide, rfl, rfl⟩

/-- C3 amended: `new_with_cache` installs exactly whatever the cache file
deserializes to, with no schema-version check: the loaded snapshot is the
decoded `Database` whenever deserialization succeeds (any `version` value
included), and only open/decode failures degrade to "no snapshot". -/
theorem new_with_cache_loads_whatever_decodes :
    ∀ (p : String) (contents : Option Database),
      (AnimeGameData.new_with_cache p contents).db = contents ∧
      (AnimeGameData.new_with_cache p contents).has_data = contents.isSome := by
  intro p contents
  cases contents <;>
    simp [AnimeGameData.new_with_cache, Database.load_from_path,
      AnimeGameData.has_data, Except.toOption]

end AGD
